import Mathlib

/-!
Shallow embedding of the LearnCast frontend (src/app/page.tsx and the
Next.js API proxy routes).  The React component's `useState` hooks become
fields of a single state record; each event handler becomes a pure state
transformer; the asynchronous pieces (the generation `setTimeout` callback)
are modelled as explicit events carrying the values their closures capture.
-/

namespace LearnCast

/-- A JS `File` object as observed by the UI (only its `name` is read). -/
structure JsFile where
  name : String
deriving DecidableEq, Repr

/-- The React state of the `Learncast` component: one field per `useState`
hook in src/app/page.tsx, plus `audioAttached` modelling whether
`audioRef.current` is non-null. -/
structure LearncastState where
  step : Nat
  sources : List JsFile
  urls : String
  analogies : String
  emphasis : String
  style : String
  plan : String
  showEmphasis : Bool
  isPlayingStingy : Bool
  isPlayingSigma : Bool
  isGenerating : Bool
  audioUrl : String
  isPlaying : Bool
  currentTime : ℚ
  duration : ℚ
  playbackRate : ℚ
  audioAttached : Bool
deriving DecidableEq, Repr

/-- The `useState` initial values of the component. -/
def initialState : LearncastState where
  step := 0
  sources := []
  urls := ""
  analogies := ""
  emphasis := ""
  style := ""
  plan := ""
  showEmphasis := false
  isPlayingStingy := false
  isPlayingSigma := false
  isGenerating := false
  audioUrl := ""
  isPlaying := false
  currentTime := 0
  duration := 0
  playbackRate := 1
  audioAttached := false

/-- JS `String.prototype.trim()`: strips whitespace from both ends. -/
def jsTrim (s : String) : String :=
  String.mk
    (((s.data.dropWhile Char.isWhitespace).reverse.dropWhile
        Char.isWhitespace).reverse)

/-- `isStepComplete(stepIndex)` from src/app/page.tsx lines 164-179. -/
def isStepComplete (s : LearncastState) : Nat → Bool
  | 0 => true
  | 1 => decide (s.sources.length > 0) || jsTrim s.urls != ""
  | 2 => jsTrim s.analogies != "" && (!s.showEmphasis || jsTrim s.emphasis != "")
  | 3 => s.style != ""
  | 4 => s.plan != ""
  | _ => false

/-- `handleFileUpload`: when the event carries a non-null file list the
whole `sources` state is replaced by `Array.from(e.target.files)`. -/
def handleFileUpload (files : Option (List JsFile)) (s : LearncastState) :
    LearncastState :=
  match files with
  | some fs => { s with sources := fs }
  | none => s

/-- `handleGenerate`: sets `isGenerating` and schedules a `setTimeout`
callback that closes over the current value of `step`.  Returns the
immediate new state together with the `step` value the callback captured. -/
def handleGenerate (s : LearncastState) : LearncastState × Nat :=
  ({ s with isGenerating := true }, s.step)

/-- The body of the `setTimeout` callback inside `handleGenerate`:
clears `isGenerating`, stores the audio URL, and sets the step to
`capturedStep + 1` (the `step` it closed over, not the current one). -/
def generateTimeout (capturedStep : Nat) (s : LearncastState) :
    LearncastState :=
  { s with
    isGenerating := false
    audioUrl := "https://example.com/generated-podcast.mp3"
    step := capturedStep + 1 }

/-- `handlePlayPause`: guarded by `audioRef.current`; optimistically flips
`isPlaying`. -/
def handlePlayPause (s : LearncastState) : LearncastState :=
  if s.audioAttached then { s with isPlaying := !s.isPlaying } else s

/-- `handleTimeUpdate`: mirrors the media element's current time. -/
def handleTimeUpdate (t : ℚ) (s : LearncastState) : LearncastState :=
  if s.audioAttached then { s with currentTime := t } else s

/-- `handleLoadedMetadata`: records the media element's duration. -/
def handleLoadedMetadata (d : ℚ) (s : LearncastState) : LearncastState :=
  if s.audioAttached then { s with duration := d } else s

/-- `handleSeek(newTime)` from src/app/page.tsx lines 129-134: writes
`newTime` to the element position and to `currentTime`, with no clamping. -/
def handleSeek (newTime : ℚ) (s : LearncastState) : LearncastState :=
  if s.audioAttached then { s with currentTime := newTime } else s

/-- `handlePlaybackRateChange`: stores the parsed rate. -/
def handlePlaybackRateChange (rate : ℚ) (s : LearncastState) :
    LearncastState :=
  { s with playbackRate := rate }

/-- The blur listener installed on the analogies textarea: once the field
loses focus non-blank, `showEmphasis` is set to true. -/
def handleAnalogiesBlur (s : LearncastState) : LearncastState :=
  if jsTrim s.analogies != "" then { s with showEmphasis := true } else s

/-- The welcome-screen button (`onClick={() => setStep(1)}`); it is only
rendered while `step = 0`. -/
def startLearningClick (s : LearncastState) : LearncastState :=
  if s.step = 0 then { s with step := 1 } else s

/-- The footer Previous button: rendered only for `0 < step < 5`
(`steps.length - 2 = 5`); its click runs `setStep(step - 1)` and, when
leaving step 4, `setPlan("")`. -/
def prevClick (s : LearncastState) : LearncastState :=
  if 0 < s.step ∧ s.step < 5 then
    { s with
      step := s.step - 1
      plan := if s.step = 4 then "" else s.plan }
  else s

/-- The footer Next/Generate button: rendered only for `0 < step < 5` and
disabled unless `isStepComplete(step)`; at step 4 it calls
`handleGenerate()` instead of `setStep(step + 1)`. -/
def nextClick (s : LearncastState) : LearncastState :=
  if 0 < s.step ∧ s.step < 5 then
    if isStepComplete s s.step then
      if s.step = 4 then (handleGenerate s).1 else { s with step := s.step + 1 }
    else s
  else s

/-- JS truncating conversion (`Math.trunc` / the quotient used by the JS
`%` operator), on rationals. -/
def ratTrunc (x : ℚ) : Int :=
  if x < 0 then -⌊-x⌋ else ⌊x⌋

/-- The JS `%` operator on numbers: `a - b * trunc(a / b)`. -/
def jsMod (a b : ℚ) : ℚ :=
  a - b * (ratTrunc (a / b) : ℚ)

/-- JS `String.prototype.padStart(n, c)`. -/
def padStart (s : String) (n : Nat) (c : Char) : String :=
  String.mk (List.replicate (n - s.length) c) ++ s

/-- `formatTime` from src/app/page.tsx lines 153-157:
`Math.floor(time / 60)` minutes, `Math.floor(time % 60)` seconds padded
to two digits. -/
def formatTime (time : ℚ) : String :=
  let minutes : Int := ⌊time / 60⌋
  let seconds : Int := ⌊jsMod time 60⌋
  toString minutes ++ ":" ++ padStart (toString seconds) 2 '0'

/-- The user-interface and asynchronous events that mutate the component
state during one session. -/
inductive Ev where
  | startLearning
  | fileUpload (files : Option (List JsFile))
  | setUrls (v : String)
  | setAnalogies (v : String)
  | analogiesBlur
  | setEmphasis (v : String)
  | setStyle (v : String)
  | selectPlan (v : String)
  | toggleStingy
  | toggleSigma
  | prev
  | next
  | timeoutFire (captured : Nat)
  | playPause
  | timeUpdate (t : ℚ)
  | loadedMetadata (d : ℚ)
  | seek (t : ℚ)
  | rateChange (r : ℚ)

/-- One step of the event-driven execution: each event runs its handler. -/
def applyEv : Ev → LearncastState → LearncastState
  | .startLearning, s => startLearningClick s
  | .fileUpload files, s => handleFileUpload files s
  | .setUrls v, s => { s with urls := v }
  | .setAnalogies v, s => { s with analogies := v }
  | .analogiesBlur, s => handleAnalogiesBlur s
  | .setEmphasis v, s => { s with emphasis := v }
  | .setStyle v, s => { s with style := v }
  | .selectPlan v, s => { s with plan := v }
  | .toggleStingy, s => { s with isPlayingStingy := !s.isPlayingStingy }
  | .toggleSigma, s => { s with isPlayingSigma := !s.isPlayingSigma }
  | .prev, s => prevClick s
  | .next, s => nextClick s
  | .timeoutFire k, s => generateTimeout k s
  | .playPause, s => handlePlayPause s
  | .timeUpdate t, s => handleTimeUpdate t s
  | .loadedMetadata d, s => handleLoadedMetadata d s
  | .seek t, s => handleSeek t s
  | .rateChange r, s => handlePlaybackRateChange r s

/-- Run a sequence of events from a state. -/
def run (es : List Ev) (s : LearncastState) : LearncastState :=
  es.foldl (fun t e => applyEv e t) s

/-- A JSON response body sent by an API route: either the upstream data
forwarded verbatim (`res.json(data)`) or an error object
(`res.json({ error: msg })`). -/
inductive JsonBody where
  | raw (data : String)
  | errorObj (msg : String)
deriving DecidableEq, Repr

/-- The observable response of a Next.js API route handler. -/
structure ApiResponse where
  status : Nat
  body : Option JsonBody
  allowHeader : Option (List String)
  endText : Option String
deriving DecidableEq, Repr

/-- The outcome of `fetch` + `response.json()` against the upstream
backend: the fetch can reject (network failure), resolve with a body that
fails JSON parsing, or resolve with parsed data — in the latter two cases
carrying the upstream HTTP status. -/
inductive UpstreamOutcome where
  | fetchThrow
  | jsonThrow (status : Nat)
  | ok (status : Nat) (data : String)
deriving DecidableEq, Repr

/-- The POST proxy src/pages/api/generate_podcast.js: forwards to the
backend; any throw in the `try` block yields a 500 error body; a
successfully parsed upstream body is returned with status 200 regardless
of the upstream status. -/
def generate_podcast_handler (method : String) (upstream : UpstreamOutcome) :
    ApiResponse :=
  if method = "POST" then
    match upstream with
    | .ok _ data => ⟨200, some (.raw data), none, none⟩
    | .fetchThrow => ⟨500, some (.errorObj "Failed to generate podcast"), none, none⟩
    | .jsonThrow _ => ⟨500, some (.errorObj "Failed to generate podcast"), none, none⟩
  else
    ⟨405, none, some ["POST"], some ("Method " ++ method ++ " Not Allowed")⟩

/-- The GET proxy for `/podcast_status/{id}`: same shape as the POST
proxy, with its own error message and allowed method. -/
def podcast_status_handler (method : String) (id : String)
    (upstream : UpstreamOutcome) : ApiResponse :=
  if method = "GET" then
    match upstream with
    | .ok _ data => ⟨200, some (.raw data), none, none⟩
    | .fetchThrow => ⟨500, some (.errorObj "Failed to fetch podcast status"), none, none⟩
    | .jsonThrow _ => ⟨500, some (.errorObj "Failed to fetch podcast status"), none, none⟩
  else
    ⟨405, none, some ["GET"], some ("Method " ++ method ++ " Not Allowed")⟩

/-- A playback state on the result screen with duration 120 and the audio
element mounted. -/
def seekState : LearncastState :=
  { initialState with step := 6, audioAttached := true, duration := 120 }

/-- A filled-in wizard state sitting at the plan step with a plan chosen,
so that `isStepComplete 4` holds. -/
def st4 : LearncastState :=
  { initialState with
    step := 4
    urls := "https://example.org/notes"
    analogies := "like a water pump"
    style := "casual"
    plan := "sigma" }

/-- A state whose `showEmphasis` latch has already fired. -/
def latchState : LearncastState :=
  { initialState with analogies := "like gears", showEmphasis := true }

section Lemmas

/-- `ratTrunc` agrees with the floor on non-negative inputs. -/
theorem ratTrunc_of_nonneg {x : ℚ} (h : 0 ≤ x) : ratTrunc x = ⌊x⌋ := by
  rw [ratTrunc, if_neg (not_lt.2 h)]

/-- Dividing by 60 commutes with taking floors. -/
theorem floor_div_sixty (t : ℚ) : ⌊t / 60⌋ = ⌊t⌋ / 60 := by
  have h60 : (0 : ℚ) < 60 := by norm_num
  rw [Int.floor_eq_iff]
  constructor
  · rw [le_div_iff₀ h60]
    have h1 : ⌊t⌋ / 60 * 60 ≤ ⌊t⌋ := Int.ediv_mul_le ⌊t⌋ (by norm_num)
    have h1q : ((⌊t⌋ / 60 : ℤ) : ℚ) * 60 ≤ (⌊t⌋ : ℚ) := by exact_mod_cast h1
    have h2 : (⌊t⌋ : ℚ) ≤ t := Int.floor_le t
    linarith
  · rw [div_lt_iff₀ h60]
    have h2 : ⌊t⌋ + 1 ≤ (⌊t⌋ / 60 + 1) * 60 :=
      Int.add_one_le_iff.mpr
        (Int.lt_ediv_add_one_mul_self ⌊t⌋ (by norm_num))
    have h2q : (⌊t⌋ : ℚ) + 1 ≤ (((⌊t⌋ / 60 : ℤ) : ℚ) + 1) * 60 := by
      exact_mod_cast h2
    have h3 : t < (⌊t⌋ : ℚ) + 1 := Int.lt_floor_add_one t
    linarith

/-- For non-negative `t`, flooring the JS remainder `t % 60` is the
integer remainder of `⌊t⌋` by 60. -/
theorem floor_jsMod_sixty (t : ℚ) (h : 0 ≤ t) : ⌊jsMod t 60⌋ = ⌊t⌋ % 60 := by
  have hq : (0 : ℚ) ≤ t / 60 := by positivity
  rw [jsMod, ratTrunc_of_nonneg hq]
  have hcast : t - 60 * (⌊t / 60⌋ : ℚ) = t - ((60 * ⌊t / 60⌋ : ℤ) : ℚ) := by
    push_cast
    ring
  rw [hcast, Int.floor_sub_int, floor_div_sixty, Int.emod_def]

/-- `showEmphasis` is preserved (once true) by every single event. -/
theorem applyEv_showEmphasis (e : Ev) (s : LearncastState)
    (h : s.showEmphasis = true) : (applyEv e s).showEmphasis = true := by
  cases e <;>
    simp only [applyEv, startLearningClick, handleFileUpload,
      handleAnalogiesBlur, prevClick, nextClick, handleGenerate,
      generateTimeout, handlePlayPause, handleTimeUpdate,
      handleLoadedMetadata, handleSeek, handlePlaybackRateChange] <;>
    (repeat' split) <;>
    simp [h]

end Lemmas

/-- C2: `isStepComplete` holds unconditionally at step 0; at step 1 iff
there is an uploaded source or `urls` is non-blank after trimming; at
step 2 iff `analogies` is non-blank and (`showEmphasis` is off or
`emphasis` is non-blank); at step 3 iff `style` is non-empty; at step 4
iff `plan` is non-empty. -/
theorem isStepComplete_characterisation (s : LearncastState) :
    isStepComplete s 0 = true ∧
    (isStepComplete s 1 = true ↔ (s.sources ≠ [] ∨ jsTrim s.urls ≠ "")) ∧
    (isStepComplete s 2 = true ↔
      (jsTrim s.analogies ≠ "" ∧
        (s.showEmphasis = false ∨ jsTrim s.emphasis ≠ ""))) ∧
    (isStepComplete s 3 = true ↔ s.style ≠ "") ∧
    (isStepComplete s 4 = true ↔ s.plan ≠ "") := by
  refine ⟨rfl, ?_, ?_, ?_, ?_⟩ <;>
    simp [isStepComplete, List.length_pos, Bool.not_eq_true']

/-- C3: when the current step is one of 1..4 and its completion predicate
fails, clicking Next is a no-op on the entire state. -/
theorem goNext_noop_when_incomplete (s : LearncastState) (h1 : 1 ≤ s.step)
    (h2 : s.step ≤ 4) (h : isStepComplete s s.step = false) :
    nextClick s = s := by
  unfold nextClick
  rw [if_pos (show 0 < s.step ∧ s.step < 5 by omega)]
  simp [h]

/-- C3 witness: at step 1 of a fresh session nothing is filled in, the
completion predicate fails, and Next leaves the state unchanged. -/
theorem goNext_noop_witness :
    isStepComplete { initialState with step := 1 } 1 = false ∧
    nextClick { initialState with step := 1 } = { initialState with step := 1 } :=
  ⟨by decide,
    goNext_noop_when_incomplete { initialState with step := 1 }
      (by decide) (by decide) (by decide)⟩

/-- C7: clicking Previous at step 4 moves to step 3 and resets `plan`. -/
theorem goPrevious_from_plan_step (s : LearncastState) (h : s.step = 4) :
    (prevClick s).step = 3 ∧ (prevClick s).plan = "" := by
  simp [prevClick, h]

/-- C7 witness: at the concrete filled-in plan-step state, Previous lands
on step 3 with `plan` cleared. -/
theorem goPrevious_from_plan_step_witness :
    st4.step = 4 ∧ (prevClick st4).step = 3 ∧ (prevClick st4).plan = "" :=
  ⟨rfl, goPrevious_from_plan_step st4 rfl⟩

/-- C10: an upload event carrying a non-null file list replaces the whole
`sources` list with exactly the files of that event. -/
theorem fileUpload_replaces_sources (s : LearncastState) (fs : List JsFile) :
    (handleFileUpload (some fs) s).sources = fs :=
  rfl

/-- C5 counterexample: with duration 120, `seek(-5)` does not yield
`currentTime == 0` — the handler performs no clamping. -/
theorem seek_no_clamp_counterexample :
    ¬ ((handleSeek (-5) seekState).currentTime = 0) := by
  decide

/-- C5 (amended): `handleSeek(t)` stores `t` into `currentTime` unchanged
whenever the audio element is attached; in particular with duration 120,
`seek(-5)` yields `currentTime == -5` and `seek(500)` yields
`currentTime == 500`. -/
theorem seek_unclamped :
    (∀ (s : LearncastState) (t : ℚ), s.audioAttached = true →
      (handleSeek t s).currentTime = t) ∧
    (handleSeek (-5) seekState).currentTime = -5 ∧
    (handleSeek 500 seekState).currentTime = 500 := by
  refine ⟨?_, by decide, by decide⟩
  intro s t h
  simp [handleSeek, h]

/-- C5 witness: the amended statement applied at `seekState` and `t = 7`. -/
theorem seek_unclamped_witness :
    seekState.audioAttached = true ∧ (handleSeek 7 seekState).currentTime = 7 :=
  ⟨by decide, seek_unclamped.1 seekState 7 (by decide)⟩

/-- C1 (divergence documented): from any complete step-4 state, clicking
Generate leaves the step at 4 (it does not enter step 5), and when the
timeout callback fires with the step it captured, the audio URL is stored
but the step becomes 5 — the generating screen — never 6. -/
theorem generate_transition_behaviour (s : LearncastState)
    (h4 : s.step = 4) (hc : isStepComplete s 4 = true) :
    (nextClick s).step = 4 ∧
    (handleGenerate s).2 = 4 ∧
    (generateTimeout (handleGenerate s).2 (nextClick s)).audioUrl =
      "https://example.com/generated-podcast.mp3" ∧
    (generateTimeout (handleGenerate s).2 (nextClick s)).step = 5 ∧
    (generateTimeout (handleGenerate s).2 (nextClick s)).step ≠ 6 := by
  simp [nextClick, handleGenerate, generateTimeout, h4, hc]

/-- C1 witness: the divergence theorem applied at the concrete filled-in
plan-step state. -/
theorem generate_transition_witness :
    st4.step = 4 ∧ isStepComplete st4 4 = true ∧
    (nextClick st4).step = 4 ∧
    (generateTimeout (handleGenerate st4).2 (nextClick st4)).step = 5 :=
  ⟨rfl, by decide,
    (generate_transition_behaviour st4 rfl (by decide)).1,
    (generate_transition_behaviour st4 rfl (by decide)).2.2.2.1⟩

/-- C4: `showEmphasis` is a one-way latch — from any state in which it is
true, no sequence of session events can make it false again. -/
theorem showEmphasis_monotone (es : List Ev) (s : LearncastState)
    (h : s.showEmphasis = true) : (run es s).showEmphasis = true := by
  induction es generalizing s with
  | nil => exact h
  | cons e es ih => exact ih _ (applyEv_showEmphasis e s h)

/-- C4 witness: the latch theorem applied to `latchState` and a sequence
of navigation, typing and playback events. -/
theorem showEmphasis_monotone_witness :
    latchState.showEmphasis = true ∧
    (run [Ev.setAnalogies "", Ev.analogiesBlur, Ev.prev, Ev.next,
      Ev.seek 3] latchState).showEmphasis = true :=
  ⟨rfl, showEmphasis_monotone _ latchState rfl⟩

/-- C6: for non-negative `t`, `formatTime t` is the unpadded minute count
`⌊t / 60⌋`, a colon, and the remaining whole seconds `⌊t⌋ % 60` padded to
two digits; in particular `formatTime 0 = "0:00"`,
`formatTime 65 = "1:05"` and `formatTime 599 = "9:59"`. -/
theorem formatTime_spec :
    (∀ t : ℚ, 0 ≤ t →
      formatTime t =
        toString ⌊t / 60⌋ ++ ":" ++ padStart (toString (⌊t⌋ % 60)) 2 '0') ∧
    formatTime 0 = "0:00" ∧
    formatTime 65 = "1:05" ∧
    formatTime 599 = "9:59" := by
  refine ⟨?_, ?_, ?_, ?_⟩
  · intro t ht
    simp only [formatTime]
    rw [floor_jsMod_sixty t ht]
  · have h1 : ⌊(0:ℚ) / 60⌋ = 0 := by norm_num
    have h2 : ⌊jsMod (0:ℚ) 60⌋ = 0 := by norm_num [jsMod, ratTrunc]
    rw [formatTime, h1, h2]
    decide
  · have h1 : ⌊(65:ℚ) / 60⌋ = 1 := by norm_num
    have h2 : ⌊jsMod (65:ℚ) 60⌋ = 5 := by norm_num [jsMod, ratTrunc]
    rw [formatTime, h1, h2]
    decide
  · have h1 : ⌊(599:ℚ) / 60⌋ = 9 := by norm_num
    have h2 : ⌊jsMod (599:ℚ) 60⌋ = 59 := by norm_num [jsMod, ratTrunc]
    rw [formatTime, h1, h2]
    decide

/-- C6 witness: the universal part of the `formatTime` theorem applied at
`t = 65`. -/
theorem formatTime_spec_witness :
    (0 : ℚ) ≤ 65 ∧
    formatTime 65 =
      toString ⌊(65:ℚ) / 60⌋ ++ ":" ++
        padStart (toString (⌊(65:ℚ)⌋ % 60)) 2 '0' :=
  ⟨by norm_num, formatTime_spec.1 65 (by norm_num)⟩

/-- C8 counterexample: an upstream response with non-2xx status whose body
parses as JSON is forwarded by the generate proxy with status 200 and the
raw upstream data — a success response, not a generation error. -/
theorem non2xx_forwarded_as_success :
    (generate_podcast_handler "POST" (UpstreamOutcome.ok 500 "x")).status
        = 200 ∧
    (generate_podcast_handler "POST" (UpstreamOutcome.ok 500 "x")).body
        = some (JsonBody.raw "x") := by
  decide

/-- C8 (amended): a network-level fetch failure (or an upstream body that
fails JSON parsing) surfaces as a 500 generation error, while any
successfully parsed upstream body — whatever the upstream status — is
forwarded as a 200 success response. -/
theorem generate_proxy_error_surface :
    generate_podcast_handler "POST" UpstreamOutcome.fetchThrow =
      ⟨500, some (JsonBody.errorObj "Failed to generate podcast"),
        none, none⟩ ∧
    (∀ st : Nat,
      generate_podcast_handler "POST" (UpstreamOutcome.jsonThrow st) =
        ⟨500, some (JsonBody.errorObj "Failed to generate podcast"),
          none, none⟩) ∧
    (∀ (st : Nat) (data : String),
      generate_podcast_handler "POST" (UpstreamOutcome.ok st data) =
        ⟨200, some (JsonBody.raw data), none, none⟩) :=
  ⟨rfl, fun _ => rfl, fun _ _ => rfl⟩

/-- C9: whenever the upstream fetch throws, each proxy responds with
status 500 and a JSON error object; in particular a GET for job "abc"
against an unreachable upstream yields 500 with
`error: "Failed to fetch podcast status"`. -/
theorem proxy_fetch_throw_yields_500 :
    (∀ id : String,
      podcast_status_handler "GET" id UpstreamOutcome.fetchThrow =
        ⟨500, some (JsonBody.errorObj "Failed to fetch podcast status"),
          none, none⟩) ∧
    generate_podcast_handler "POST" UpstreamOutcome.fetchThrow =
      ⟨500, some (JsonBody.errorObj "Failed to generate podcast"),
        none, none⟩ ∧
    podcast_status_handler "GET" "abc" UpstreamOutcome.fetchThrow =
      ⟨500, some (JsonBody.errorObj "Failed to fetch podcast status"),
        none, none⟩ :=
  ⟨fun _ => rfl, rfl, rfl⟩

end LearnCast
